import Mathlib

/-!
# Verification of the Handy AI-model lifecycle UI controller

Shallow embedding of the settings-UI model lifecycle controller
(`AiModelSelector`), the dropdown's downloaded-membership check
(`AiModelDropdown.isModelDownloaded`) and the enhancement-test handler
(`AiEnhancementSettings.handleTestEnhancement`) of the Handy repository.

React `useState` state is modelled as an explicit record; each event
listener and click handler becomes a pure state-transition function that
also returns the list of observable effects (backend calls and toast
notifications) it performs.  Asynchronous backend results are passed in
as explicit parameters (`CallOutcome`), so a handler that awaits a
backend call is split at the await point where event interleaving matters
(`handleModelPullStart` / `handleModelPullResolve`).

JavaScript numbers concerned here (download percentages) are embedded as
rationals; `Math.round` becomes `jsRound`.  A JS `Map` (insertion-ordered,
unique keys) is embedded as an association list with `mapSet`, `mapDelete`
and `mapLookup` mirroring `Map.set`, `Map.delete` and `Map.get`.
-/

namespace Handy

/-- Catalog entry, from the `AiModel` interface of `AiModelSelector`. -/
structure AiModel where
  id : String
  size_mb : Nat
  speed : String
  quality : String
  notes : String
deriving DecidableEq

/-- A pull-progress event payload, from the `PullProgress` interface:
`{ model_id, status, completed, total, percentage }` where `completed`
and `total` are nullable numbers. -/
structure PullProgress where
  model_id : String
  status : String
  completed : Option Int
  total : Option Int
  percentage : ℚ
deriving DecidableEq

/-- The status enum of `AiModelSelector`:
`"ready" | "pulling" | "error" | "not_installed" | "ollama_unavailable"`.
The spec calls the last value `unavailable`. -/
inductive AiModelStatus where
  | ready
  | pulling
  | error
  | not_installed
  | ollama_unavailable
deriving DecidableEq

/-- Backend commands of the `commands` facade that the embedded handlers
may invoke. -/
inductive BackendCall where
  | checkOllamaAvailable
  | getAvailableAiModels
  | listOllamaModels
  | getRecommendedAiModel
  | pullOllamaModel (modelId : String)
  | deleteOllamaModel (modelId : String)
  | testAiEnhancement (text : String)
  | getAiSystemInfo
deriving DecidableEq

/-- A toast notification (the `sonner` `toast` calls). -/
inductive Toast where
  | success (msg : String)
  | error (msg : String)
  | info (msg : String)
deriving DecidableEq

/-- An observable side effect of a handler: a backend call or a toast. -/
inductive Effect where
  | call (c : BackendCall)
  | toast (t : Toast)
deriving DecidableEq

/-- Outcome of an awaited backend call: the bindings' tagged result
(`{status:"ok", data}` or `{status:"error", error}`), or a thrown
exception (the `catch` branch). -/
inductive CallOutcome (α : Type) where
  | ok (data : α)
  | err (msg : String)
  | exn
deriving DecidableEq

/-- The `useState` state of the `AiModelSelector` component, together
with the externally persisted `ai_selected_model` setting (read through
`getSetting`, written through `updateSetting`; `none` = unset/null). -/
structure SelectorState where
  availableModels : List AiModel
  downloadedModels : List String
  modelStatus : AiModelStatus
  showDropdown : Bool
  ollamaAvailable : Bool
  pullProgress : List (String × PullProgress)
  recommendedModel : String
  aiSelectedModel : Option String
deriving DecidableEq

/-- `const selectedModel = getSetting("ai_selected_model") || ""`:
the unset setting reads as the empty string. -/
def selectedModel (s : SelectorState) : String :=
  s.aiSelectedModel.getD ""

/-- `Map.set k v`: update the entry for `k` in place if present
(keeping its position), else append a new entry. -/
def mapSet : List (String × PullProgress) → String → PullProgress →
    List (String × PullProgress)
  | [], k, v => [(k, v)]
  | e :: rest, k, v =>
    if e.1 = k then (k, v) :: rest else e :: mapSet rest k v

/-- `Map.delete k`: remove the entry for `k`, if any. -/
def mapDelete : List (String × PullProgress) → String →
    List (String × PullProgress)
  | [], _ => []
  | e :: rest, k =>
    if e.1 = k then mapDelete rest k else e :: mapDelete rest k

/-- `Map.get k` as an `Option`. -/
def mapLookup : List (String × PullProgress) → String → Option PullProgress
  | [], _ => none
  | e :: rest, k => if e.1 = k then some e.2 else mapLookup rest k

/-- JavaScript `Math.round`: round half toward positive infinity,
`Math.round x = floor (x + 1/2)`.  Written on the numerator and
denominator so that the kernel can evaluate it; `jsRound_eq_floor`
below certifies that it is exactly `⌊q + 1/2⌋`. -/
def jsRound (q : ℚ) : ℤ :=
  Int.fdiv (2 * q.num + q.den) (2 * q.den)

/-- The `"ai-model-pull-progress"` listener: store the event payload
under its `model_id` in the progress map and set `modelStatus` to
`"pulling"` (unconditionally — availability is not consulted). -/
def onProgressEvent (s : SelectorState) (p : PullProgress) : SelectorState :=
  { s with
    pullProgress := mapSet s.pullProgress p.model_id p
    modelStatus := .pulling }

/-- `loadModels`: refresh the two catalogs from the backend responses.
Each response updates its list only when the result status is `"ok"`
(`none` stands for an error result, which leaves the list unchanged). -/
def loadModels (s : SelectorState) (avail : Option (List AiModel))
    (downloaded : Option (List String)) : SelectorState :=
  { s with
    availableModels := avail.getD s.availableModels
    downloadedModels := downloaded.getD s.downloadedModels }

/-- The backend calls issued by `loadModels`. -/
def loadModelsCalls : List Effect :=
  [.call .getAvailableAiModels, .call .listOllamaModels]

/-- The `"ai-model-pull-complete"` listener: delete the completed id
from the progress map, run `loadModels` (with the given backend
responses), toast success, and set `modelStatus` to `"ready"`. -/
def onCompleteEvent (s : SelectorState) (modelId : String)
    (avail : Option (List AiModel)) (downloaded : Option (List String)) :
    SelectorState × List Effect :=
  let s1 := { s with pullProgress := mapDelete s.pullProgress modelId }
  let s2 := loadModels s1 avail downloaded
  ({ s2 with modelStatus := .ready },
   loadModelsCalls ++
     [.toast (.success (modelId ++ " downloaded successfully!"))])

/-- `handleModelSelect(modelId)`: persist the id as the selected model,
set status `"ready"`, close the dropdown, toast success; on a
persistence failure (`persistOk = false`, the `catch` branch) only an
error toast is shown and the state is unchanged. -/
def handleModelSelect (s : SelectorState) (modelId : String)
    (persistOk : Bool) : SelectorState × List Effect :=
  if persistOk then
    ({ s with
        aiSelectedModel := some modelId
        modelStatus := .ready
        showDropdown := false },
     [.toast (.success ("Switched to " ++ modelId))])
  else
    (s, [.toast (.error "Failed to select model")])

/-- First half of `handleModelPull(modelId)`, up to the `await` of the
backend pull call: set status `"pulling"`, toast info, and issue the
`pullOllamaModel` call.  No availability check occurs. -/
def handleModelPullStart (s : SelectorState) (modelId : String) :
    SelectorState × List Effect :=
  ({ s with modelStatus := .pulling },
   [.toast (.info ("Pulling " ++ modelId ++ "... This may take a few minutes.")),
    .call (.pullOllamaModel modelId)])

/-- Second half of `handleModelPull(modelId)`: dispatch on the resolved
backend result.  On `"ok"` it runs `handleModelSelect(modelId)` (with
`persistOk` the outcome of that `updateSetting`); on an error result it
toasts the backend message if non-empty (`result.error || "Failed to
pull model"`), sets status `"error"`, and deletes the id from the
progress map; a thrown exception behaves like an error with the generic
message. -/
def handleModelPullResolve (s : SelectorState) (modelId : String)
    (result : CallOutcome Unit) (persistOk : Bool) :
    SelectorState × List Effect :=
  match result with
  | .ok _ => handleModelSelect s modelId persistOk
  | .err e =>
    ({ s with
        modelStatus := .error
        pullProgress := mapDelete s.pullProgress modelId },
     [.toast (.error (if e = "" then "Failed to pull model" else e))])
  | .exn =>
    ({ s with
        modelStatus := .error
        pullProgress := mapDelete s.pullProgress modelId },
     [.toast (.error "Failed to pull model")])

/-- `handleModelDelete(modelId)`: without confirmation, do nothing (no
backend call).  Otherwise issue the delete call; on `"ok"` toast
success, run `loadModels`, and if the deleted id equals the selected
model, persist `null` and set status `"not_installed"` (a persistence
failure there falls into the outer `catch`, adding the generic error
toast); on an error result or exception only an error toast is shown. -/
def handleModelDelete (s : SelectorState) (modelId : String)
    (confirmed : Bool) (result : CallOutcome Unit)
    (avail : Option (List AiModel)) (downloaded : Option (List String))
    (persistOk : Bool) : SelectorState × List Effect :=
  if !confirmed then (s, [])
  else
    match result with
    | .ok _ =>
      let s1 := loadModels s avail downloaded
      let fx := [Effect.call (.deleteOllamaModel modelId),
                 Effect.toast (.success (modelId ++ " deleted"))] ++
                loadModelsCalls
      if selectedModel s = modelId then
        if persistOk then
          ({ s1 with
              aiSelectedModel := none
              modelStatus := .not_installed }, fx)
        else
          (s1, fx ++ [.toast (.error "Failed to delete model")])
      else (s1, fx)
    | .err e =>
      (s, [.call (.deleteOllamaModel modelId),
           .toast (.error (if e = "" then "Failed to delete model" else e))])
    | .exn =>
      (s, [.call (.deleteOllamaModel modelId),
           .toast (.error "Failed to delete model")])

/-- The pulling branch of `getDisplayText`: percentage when positive,
else the raw status phrase. -/
def pullDisplayText (p : PullProgress) : String :=
  if p.percentage > 0 then
    "Pulling " ++ toString (jsRound p.percentage) ++ "%"
  else
    "Pulling " ++ p.status ++ "..."

/-- `getDisplayText()`: if the progress map is non-empty, show the
pulling text of its first entry (`Array.from(pullProgress.values())`
takes insertion order); only otherwise dispatch on `modelStatus`. -/
def getDisplayText (s : SelectorState) : String :=
  match s.pullProgress with
  | e :: _ => pullDisplayText e.2
  | [] =>
    match s.modelStatus with
    | .ready => if selectedModel s = "" then "No Model Selected" else selectedModel s
    | .pulling => "Pulling model..."
    | .error => "Error"
    | .not_installed => "No Model - Pull Required"
    | .ollama_unavailable => "Ollama Not Running"

/-- `AiModelDropdown.isModelDownloaded(modelId)`:
`downloadedModels.some((m) => m.startsWith(modelId))` — some entry of
the downloaded list has the catalog id as a prefix of its character
sequence (JS `String.prototype.startsWith`). -/
def isModelDownloaded (downloadedModels : List String) (modelId : String) :
    Bool :=
  downloadedModels.any (fun m => modelId.data.isPrefixOf m.data)

/-- The `useState` state of `AiEnhancementSettings` relevant to the
test-enhancement handler. -/
structure EnhancementState where
  testText : String
  testResult : String
  isTesting : Bool
deriving DecidableEq

/-- The JS guard `!testText.trim()`: the trimmed text is empty, i.e.
every character of the text is whitespace. -/
def trimIsEmpty (s : String) : Bool :=
  s.data.all (fun c => c.isWhitespace)

/-- `handleTestEnhancement()`: if the text trims to empty, toast an
error and return with no backend call and no state change.  Otherwise
set `isTesting`, clear the previous result, call `testAiEnhancement`;
on `"ok"` store the result and toast success, on an error result toast
the backend message if non-empty (`result.error || "Enhancement
failed"`), on exception toast the generic message; `finally` clears
`isTesting`. -/
def handleTestEnhancement (s : EnhancementState)
    (result : CallOutcome String) : EnhancementState × List Effect :=
  if trimIsEmpty s.testText then
    (s, [.toast (.error "Please enter some text to test")])
  else
    match result with
    | .ok data =>
      ({ s with testResult := data, isTesting := false },
       [.call (.testAiEnhancement s.testText),
        .toast (.success "Enhancement complete!")])
    | .err e =>
      ({ s with testResult := "", isTesting := false },
       [.call (.testAiEnhancement s.testText),
        .toast (.error (if e = "" then "Enhancement failed" else e))])
    | .exn =>
      ({ s with testResult := "", isTesting := false },
       [.call (.testAiEnhancement s.testText),
        .toast (.error "Enhancement failed")])

/-- A sample pull-progress payload used by concrete witnesses and
counterexamples. -/
def prog (modelId : String) (pct : ℚ) : PullProgress :=
  { model_id := modelId, status := "downloading", completed := none,
    total := none, percentage := pct }

/-- A freshly initialised controller state: backend available, nothing
downloaded, nothing selected. -/
def state0 : SelectorState :=
  { availableModels := [], downloadedModels := [],
    modelStatus := .not_installed, showDropdown := false,
    ollamaAvailable := true, pullProgress := [],
    recommendedModel := "", aiSelectedModel := none }

/-- A state in which the backend is unavailable while a pull-progress
entry is present (reachable: a progress event lands, then the
availability check resolves negatively). -/
def cex1 : SelectorState :=
  { state0 with
    ollamaAvailable := false
    modelStatus := .ollama_unavailable
    pullProgress := [("fast-1b", prog "fast-1b" 42)] }

/-- A state with the backend unavailable and no progress entries. -/
def cex2 : SelectorState :=
  { state0 with
    ollamaAvailable := false
    modelStatus := .ollama_unavailable }

/-- A state in the middle of pulling `"fast-1b"`. -/
def cex3 : SelectorState :=
  { state0 with
    modelStatus := .pulling
    pullProgress := [("fast-1b", prog "fast-1b" 42)] }

/-- A state with `"fast-1b"` selected. -/
def cex6 : SelectorState :=
  { state0 with
    aiSelectedModel := some "fast-1b"
    downloadedModels := ["fast-1b-q4"]
    modelStatus := .ready }

/-- A state with two concurrent pulls in progress. -/
def cex9 : SelectorState :=
  { state0 with
    modelStatus := .pulling
    pullProgress := [("fast-1b", prog "fast-1b" 50), ("big-7b", prog "big-7b" 10)] }

/- ------------------------------------------------------------------ -/
/- Helper lemmas                                                       -/
/- ------------------------------------------------------------------ -/

/-- `jsRound` is the floor of `q + 1/2`, i.e. JavaScript `Math.round`:
certification that the kernel-friendly definition above embeds
`Math.round` faithfully. -/
theorem jsRound_eq_floor (q : ℚ) : jsRound q = ⌊q + 1/2⌋ := by
  have hq : (q.num : ℚ) = q * q.den := by
    field_simp [Rat.num_div_den q]
  have h2 : ((2 * q.den : ℕ) : ℚ) ≠ 0 := by
    push_cast
    positivity
  have h1 : q + 1/2 = ((2 * q.num + q.den : ℤ) : ℚ) / ((2 * q.den : ℕ) : ℚ) := by
    rw [eq_div_iff h2]
    push_cast
    linear_combination (-2 : ℚ) * hq
  rw [jsRound, Int.fdiv_eq_ediv _ (by positivity), h1, Rat.floor_intCast_div_natCast]
  norm_num

theorem mapLookup_mapSet_self (m : List (String × PullProgress)) (k : String)
    (v : PullProgress) : mapLookup (mapSet m k v) k = some v := by
  induction m with
  | nil => simp [mapSet, mapLookup]
  | cons e rest ih =>
    by_cases h : e.1 = k
    · simp [mapSet, h, mapLookup]
    · simp [mapSet, h, mapLookup, ih]

theorem mapLookup_mapDelete_self (m : List (String × PullProgress))
    (k : String) : mapLookup (mapDelete m k) k = none := by
  induction m with
  | nil => rfl
  | cons e rest ih =>
    by_cases h : e.1 = k
    · simp [mapDelete, h, ih]
    · simp [mapDelete, h, mapLookup, ih]

theorem mapLookup_mapDelete_ne (m : List (String × PullProgress))
    {k k' : String} (h : k ≠ k') :
    mapLookup (mapDelete m k') k = mapLookup m k := by
  induction m with
  | nil => rfl
  | cons e rest ih =>
    by_cases he : e.1 = k'
    · have hkk : ¬ (k' = k) := fun hh => h hh.symm
      simp [mapDelete, he, mapLookup, hkk, ih]
    · simp [mapDelete, he, mapLookup, ih]

theorem mapDelete_eq_of_lookup_none (m : List (String × PullProgress))
    (k : String) (h : mapLookup m k = none) : mapDelete m k = m := by
  induction m with
  | nil => rfl
  | cons e rest ih =>
    rw [mapLookup] at h
    by_cases he : e.1 = k
    · rw [if_pos he] at h
      exact absurd h (by simp)
    · rw [if_neg he] at h
      rw [mapDelete, if_neg he, ih h]

/-- No pulling display string coincides with the unavailable display
string (their first characters differ). -/
theorem pullDisplayText_ne_unavailable (p : PullProgress) :
    pullDisplayText p ≠ "Ollama Not Running" := by
  have key : ∀ a : String, "Pulling " ++ a ≠ "Ollama Not Running" := by
    intro a h
    have h2 : ("Pulling " ++ a).data = "Ollama Not Running".data :=
      congrArg String.data h
    rw [String.data_append] at h2
    have h4 : ("Pulling ".data ++ a.data).head? = some 'P' := rfl
    rw [h2] at h4
    exact absurd h4 (by decide)
  unfold pullDisplayText
  by_cases hp : p.percentage > 0
  · rw [if_pos hp, String.append_assoc]
    exact key _
  · rw [if_neg hp, String.append_assoc]
    exact key _

/- ------------------------------------------------------------------ -/
/- Claim theorems                                                      -/
/- ------------------------------------------------------------------ -/

/-- Claim C1, counterexample: in a reachable state with the backend
unavailable (`ollamaAvailable = false`, stored status
`ollama_unavailable`) and a non-empty progress map, the display reads
the pulling text, not the unavailable text — refuting the claimed
priority of `unavailable` over `pulling`. -/
theorem C1_cex :
    cex1.ollamaAvailable = false ∧
    cex1.modelStatus = AiModelStatus.ollama_unavailable ∧
    cex1.pullProgress ≠ [] ∧
    getDisplayText cex1 = "Pulling 42%" ∧
    getDisplayText cex1 ≠ "Ollama Not Running" := by
  decide

/-- Claim C1 as amended: the display derivation checks the progress map
first — whenever any `DownloadProgress` entry exists the display shows
the pulling text of the first entry and never the unavailable text,
regardless of backend availability and of the stored status; moreover a
progress event unconditionally sets the stored status to `pulling`.
Only with an empty progress map does `modelStatus` (and thus
`unavailable`) decide the display. -/
theorem C1_amended (s : SelectorState) (e : String × PullProgress)
    (rest : List (String × PullProgress)) (h : s.pullProgress = e :: rest)
    (p : PullProgress) :
    getDisplayText s = pullDisplayText e.2 ∧
    getDisplayText s ≠ "Ollama Not Running" ∧
    (onProgressEvent s p).modelStatus = AiModelStatus.pulling := by
  have h1 : getDisplayText s = pullDisplayText e.2 := by
    unfold getDisplayText
    rw [h]
  exact ⟨h1, h1 ▸ pullDisplayText_ne_unavailable e.2, rfl⟩

/-- Witness for `C1_amended` at the concrete state `cex1`. -/
theorem C1_amended_witness :
    getDisplayText cex1 = pullDisplayText (prog "fast-1b" 42) ∧
    getDisplayText cex1 ≠ "Ollama Not Running" ∧
    (onProgressEvent cex1 (prog "fast-1b" 42)).modelStatus = AiModelStatus.pulling :=
  C1_amended cex1 ("fast-1b", prog "fast-1b" 42) [] rfl (prog "fast-1b" 42)

/-- Claim C2, counterexample: with backend availability false,
`handleModelPull` still issues the backend pull call and sets status to
`pulling` (not `unavailable`) — there is no availability guard. -/
theorem C2_cex :
    cex2.ollamaAvailable = false ∧
    Effect.call (.pullOllamaModel "fast-1b") ∈ (handleModelPullStart cex2 "fast-1b").2 ∧
    (handleModelPullStart cex2 "fast-1b").1.modelStatus = AiModelStatus.pulling ∧
    (handleModelPullStart cex2 "fast-1b").1.modelStatus ≠ AiModelStatus.ollama_unavailable := by
  decide

/-- Claim C2 as amended: if backend availability is false,
`pullModel(id)` nevertheless makes the `pullOllamaModel(id)` backend
call and sets status to `pulling`; the operation is not rejected. -/
theorem C2_amended (s : SelectorState) (modelId : String)
    (_h : s.ollamaAvailable = false) :
    Effect.call (.pullOllamaModel modelId) ∈ (handleModelPullStart s modelId).2 ∧
    (handleModelPullStart s modelId).1.modelStatus = AiModelStatus.pulling := by
  exact ⟨by simp [handleModelPullStart], rfl⟩

/-- Witness for `C2_amended` at the concrete state `cex2`. -/
theorem C2_amended_witness :
    Effect.call (.pullOllamaModel "fast-1b") ∈ (handleModelPullStart cex2 "fast-1b").2 ∧
    (handleModelPullStart cex2 "fast-1b").1.modelStatus = AiModelStatus.pulling :=
  C2_amended cex2 "fast-1b" rfl

/-- Claim C3, counterexample: the backend pull call for `"fast-1b"`
resolves successfully while the progress entry is still present (the
completion event has not arrived); contrary to the claim, this
first-arriving result does not clear `DownloadProgress["fast-1b"]` and
triggers no catalog refresh — its only effect is the selection toast. -/
theorem C3_cex :
    mapLookup (handleModelPullResolve cex3 "fast-1b" (.ok ()) true).1.pullProgress "fast-1b"
      = some (prog "fast-1b" 42) ∧
    (handleModelPullResolve cex3 "fast-1b" (.ok ()) true).2
      = [Effect.toast (.success "Switched to fast-1b")] := by
  decide

/-- Claim C3 as amended: clearing `DownloadProgress[id]` and refreshing
the catalog are done only by the completion event, whenever it arrives:
for every state it removes exactly the id's entry from the progress map
(so the id's entry is gone afterwards, present or not) and issues both
catalog-refresh calls; when the entry was already cleared the delete is
a no-op on the map.  The backend call's own success result leaves the
progress map untouched and makes no backend call (it only performs
selection). -/
theorem C3_amended (s : SelectorState) (modelId : String)
    (avail : Option (List AiModel)) (downloaded : Option (List String))
    (persistOk : Bool) :
    (onCompleteEvent s modelId avail downloaded).1.pullProgress
      = mapDelete s.pullProgress modelId ∧
    mapLookup (onCompleteEvent s modelId avail downloaded).1.pullProgress modelId
      = none ∧
    Effect.call .getAvailableAiModels ∈ (onCompleteEvent s modelId avail downloaded).2 ∧
    Effect.call .listOllamaModels ∈ (onCompleteEvent s modelId avail downloaded).2 ∧
    (mapLookup s.pullProgress modelId = none →
      (onCompleteEvent s modelId avail downloaded).1.pullProgress = s.pullProgress) ∧
    (handleModelPullResolve s modelId (.ok ()) persistOk).1.pullProgress = s.pullProgress ∧
    (∀ c, Effect.call c ∉ (handleModelPullResolve s modelId (.ok ()) persistOk).2) := by
  refine ⟨rfl, ?_, ?_, ?_, ?_, ?_, ?_⟩
  · exact mapLookup_mapDelete_self s.pullProgress modelId
  · simp [onCompleteEvent, loadModelsCalls]
  · simp [onCompleteEvent, loadModelsCalls]
  · intro h
    exact mapDelete_eq_of_lookup_none s.pullProgress modelId h
  · cases persistOk <;> rfl
  · intro c
    cases persistOk <;> simp [handleModelPullResolve, handleModelSelect]

/-- Witness for `C3_amended` at the concrete state `cex3`, whose
progress map holds a present entry for `"fast-1b"` that the completion
event clears. -/
theorem C3_amended_witness :
    (onCompleteEvent cex3 "fast-1b" none none).1.pullProgress
      = mapDelete cex3.pullProgress "fast-1b" ∧
    mapLookup (onCompleteEvent cex3 "fast-1b" none none).1.pullProgress "fast-1b"
      = none ∧
    Effect.call .getAvailableAiModels ∈ (onCompleteEvent cex3 "fast-1b" none none).2 ∧
    Effect.call .listOllamaModels ∈ (onCompleteEvent cex3 "fast-1b" none none).2 ∧
    (mapLookup cex3.pullProgress "fast-1b" = none →
      (onCompleteEvent cex3 "fast-1b" none none).1.pullProgress = cex3.pullProgress) ∧
    (handleModelPullResolve cex3 "fast-1b" (.ok ()) true).1.pullProgress = cex3.pullProgress ∧
    (∀ c, Effect.call c ∉ (handleModelPullResolve cex3 "fast-1b" (.ok ()) true).2) :=
  C3_amended cex3 "fast-1b" none none true

/-- Claim C4 (confirmed): when the `pullOllamaModel(id)` backend call
returns success (and the settings write succeeds), the controller runs
`handleModelSelect(id)`: the id becomes the persisted selected model,
the dropdown closes, status becomes `ready`, and the selection success
toast is shown. -/
theorem C4_pull_success_selects (s : SelectorState) (modelId : String) :
    (handleModelPullResolve s modelId (.ok ()) true).1.aiSelectedModel = some modelId ∧
    (handleModelPullResolve s modelId (.ok ()) true).1.showDropdown = false ∧
    (handleModelPullResolve s modelId (.ok ()) true).1.modelStatus = AiModelStatus.ready ∧
    (handleModelPullResolve s modelId (.ok ()) true).2
      = [Effect.toast (.success ("Switched to " ++ modelId))] :=
  ⟨rfl, rfl, rfl, rfl⟩

/-- Claim C5 (confirmed): the downloaded-membership check reports a
model as downloaded exactly when some entry of the downloaded list has
the catalog id as a prefix; the `"fast-1b-q4"`/`"fast-1b"` scenario. -/
theorem C5_downloaded_membership (d : List String) (modelId : String) :
    (isModelDownloaded d modelId = true ↔
      ∃ m ∈ d, ∃ t : String, m = modelId ++ t) ∧
    isModelDownloaded ["fast-1b-q4"] "fast-1b" = true := by
  constructor
  · rw [isModelDownloaded, List.any_eq_true]
    constructor
    · rintro ⟨m, hm, hpre⟩
      rw [List.isPrefixOf_iff_prefix] at hpre
      obtain ⟨tl, htl⟩ := hpre
      refine ⟨m, hm, ⟨tl⟩, ?_⟩
      apply String.ext
      rw [String.data_append]
      exact htl.symm
    · rintro ⟨m, hm, t, rfl⟩
      refine ⟨modelId ++ t, hm, ?_⟩
      rw [List.isPrefixOf_iff_prefix, String.data_append]
      exact ⟨t.data, rfl⟩
  · decide

/-- Claim C6 (confirmed): deleting the currently selected model, on
backend success (with confirmation given and the settings write
succeeding), refreshes the downloaded-models catalog, unsets the
persisted selected model, and sets status to `not_installed`. -/
theorem C6_delete_selected_clears (s : SelectorState) (modelId : String)
    (avail : Option (List AiModel)) (downloaded : Option (List String))
    (h : selectedModel s = modelId) :
    (handleModelDelete s modelId true (.ok ()) avail downloaded true).1.aiSelectedModel = none ∧
    (handleModelDelete s modelId true (.ok ()) avail downloaded true).1.modelStatus
      = AiModelStatus.not_installed ∧
    (handleModelDelete s modelId true (.ok ()) avail downloaded true).1.downloadedModels
      = downloaded.getD s.downloadedModels := by
  simp [handleModelDelete, h, loadModels]

/-- Witness for `C6_delete_selected_clears` at the concrete state
`cex6`. -/
theorem C6_delete_selected_clears_witness :
    (handleModelDelete cex6 "fast-1b" true (.ok ()) none (some []) true).1.aiSelectedModel = none ∧
    (handleModelDelete cex6 "fast-1b" true (.ok ()) none (some []) true).1.modelStatus
      = AiModelStatus.not_installed ∧
    (handleModelDelete cex6 "fast-1b" true (.ok ()) none (some []) true).1.downloadedModels
      = (some ([] : List String)).getD cex6.downloadedModels :=
  C6_delete_selected_clears cex6 "fast-1b" none (some []) rfl

/-- Claim C7 (confirmed): when the pull backend call returns a failure
result, the progress entry for the id is deleted, status becomes
`error`, the backend message is toasted verbatim when non-empty and a
generic message otherwise, and the persisted selection is unchanged. -/
theorem C7_pull_failure (s : SelectorState) (modelId e : String)
    (persistOk : Bool) :
    (handleModelPullResolve s modelId (.err e) persistOk).1.pullProgress
      = mapDelete s.pullProgress modelId ∧
    mapLookup (handleModelPullResolve s modelId (.err e) persistOk).1.pullProgress modelId
      = none ∧
    (handleModelPullResolve s modelId (.err e) persistOk).1.modelStatus
      = AiModelStatus.error ∧
    (handleModelPullResolve s modelId (.err e) persistOk).1.aiSelectedModel
      = s.aiSelectedModel ∧
    (handleModelPullResolve s modelId (.err e) persistOk).2
      = [Effect.toast (.error (if e = "" then "Failed to pull model" else e))] :=
  ⟨rfl, mapLookup_mapDelete_self s.pullProgress modelId, rfl, rfl, rfl⟩

/-- Claim C8, counterexample: progress events are stored verbatim, so a
later event with a smaller percentage makes the displayed percentage
decrease (50% then 40%), and an event above 100 is displayed above 100
(150%). -/
theorem C8_cex :
    getDisplayText (onProgressEvent state0 (prog "fast-1b" 50)) = "Pulling 50%" ∧
    getDisplayText (onProgressEvent (onProgressEvent state0 (prog "fast-1b" 50))
      (prog "fast-1b" 40)) = "Pulling 40%" ∧
    ((40 : ℚ) < 50) ∧
    getDisplayText (onProgressEvent state0 (prog "fast-1b" 150)) = "Pulling 150%" ∧
    ((100 : ℚ) < 150) := by
  decide

/-- Claim C8 as amended: for every sequence of progress events for a
never-completed model id, the stored `DownloadProgress[id]` read by the
display equals the last event verbatim — last write wins, with no
clamping to 100 and no monotonicity enforcement (the displayed
percentage is non-decreasing only when the event sequence itself is). -/
theorem C8_amended (s : SelectorState) (modelId : String)
    (es : List PullProgress) (e : PullProgress)
    (h : ∀ x ∈ es ++ [e], x.model_id = modelId) :
    mapLookup ((es ++ [e]).foldl onProgressEvent s).pullProgress modelId
      = some e := by
  have he : e.model_id = modelId := h e (by simp)
  subst he
  rw [List.foldl_append, List.foldl_cons, List.foldl_nil]
  exact mapLookup_mapSet_self _ _ _

/-- Witness for `C8_amended`: two events for `"fast-1b"`, the stored
entry is the second one. -/
theorem C8_amended_witness :
    mapLookup (([prog "fast-1b" 50] ++ [prog "fast-1b" 40]).foldl
      onProgressEvent state0).pullProgress "fast-1b" = some (prog "fast-1b" 40) :=
  C8_amended state0 "fast-1b" [prog "fast-1b" 50] (prog "fast-1b" 40) (by decide)

/-- Claim C9 (confirmed): a completion event for one model id leaves
the progress entry of every other id unchanged (no cross-model
clearing). -/
theorem C9_completion_frame (s : SelectorState) (completedId k : String)
    (avail : Option (List AiModel)) (downloaded : Option (List String))
    (h : k ≠ completedId) :
    mapLookup (onCompleteEvent s completedId avail downloaded).1.pullProgress k
      = mapLookup s.pullProgress k := by
  exact mapLookup_mapDelete_ne s.pullProgress h

/-- Witness for `C9_completion_frame`: completing `"big-7b"` leaves the
`"fast-1b"` entry in place. -/
theorem C9_completion_frame_witness :
    mapLookup (onCompleteEvent cex9 "big-7b" none none).1.pullProgress "fast-1b"
      = mapLookup cex9.pullProgress "fast-1b" :=
  C9_completion_frame cex9 "big-7b" "fast-1b" none none (by decide)

/-- Claim C10 (confirmed): when the test text trims to empty (it is
empty or all whitespace), the handler returns immediately with the
state unchanged (previous result and testing flag intact), producing
only the error toast and no backend call. -/
theorem C10_test_guard (s : EnhancementState) (result : CallOutcome String)
    (h : trimIsEmpty s.testText = true) :
    handleTestEnhancement s result
      = (s, [Effect.toast (.error "Please enter some text to test")]) := by
  simp [handleTestEnhancement, h]

/-- Witness for `C10_test_guard` on whitespace-only input with a stale
result and testing flag present. -/
theorem C10_test_guard_witness :
    handleTestEnhancement
      { testText := "   ", testResult := "old", isTesting := false }
      (.ok "new")
      = ({ testText := "   ", testResult := "old", isTesting := false },
         [Effect.toast (.error "Please enter some text to test")]) :=
  C10_test_guard
    { testText := "   ", testResult := "old", isTesting := false }
    (.ok "new") (by decide)

end Handy
